import Mathlib

/-!
Shallow embedding of the classification-and-screening decision engine of
`src/app.py` (export-control demo): the pure function chain
`enhanced_classify` / `screen_transaction` / `generate_case_decision`
together with the static rule and list tables it consumes.

Modelling conventions:
* Python strings are Lean `String`s; all character-level work is done on
  `String.data` (`List Char`) so every definition reduces structurally.
* Python `str.lower()` is modelled by mapping `Char.toLower` (ASCII case
  folding; the Japanese characters occurring in the tables are caseless in
  Python as well).
* Python `str.strip()` is modelled by dropping whitespace characters from
  both ends.
* Python floats are modelled by `ℚ`; the random jitter
  `random.uniform(-0.05, 0.05)` is an explicit parameter `j : Nat → ℚ`
  giving the jitter drawn for each rule index.
* The regex patterns of `DEMO_MATRIX_RULES` all have the shape
  `\b(lit1|lit2|...)\b`: an alternation of literal words between word
  boundaries.  Each pattern is represented by its list of alternative
  literals (lower-cased, in the order the regex engine tries them; the
  greedy optional suffix of `encrypt(ion|ed|ing)?` expands to the suffixed
  forms first).  Matching and `findall` are implemented over `List Char`
  with explicit word-boundary checks.  Word characters are alphanumerics,
  the underscore, and all non-ASCII characters (Python's `re` treats the
  non-ASCII letters occurring in the rule table as word characters).
-/

namespace ExportRule

/-- Word character for the `\b` word-boundary check: ASCII alphanumerics,
underscore, and every non-ASCII character (the non-ASCII characters in the
rule table are all letters, which Python's `re` counts as word characters). -/
def wordChar (c : Char) : Bool :=
  c.isAlphanum || c == '_' || decide (127 < c.toNat)

/-- The first list is a prefix of the second. -/
def litPref : List Char → List Char → Bool
  | [], _ => true
  | _ :: _, [] => false
  | a :: as, b :: bs => a == b && litPref as bs

/-- Drop the first list from the front of the second, if it is a prefix. -/
def dropPref? : List Char → List Char → Option (List Char)
  | [], s => some s
  | _ :: _, [] => none
  | a :: as, b :: bs => if a == b then dropPref? as bs else none

/-- Substring containment: models Python's `pat in s` on strings
(the empty pattern is contained in every string). -/
def subOf (pat : List Char) : List Char → Bool
  | [] => litPref pat []
  | c :: rest => litPref pat (c :: rest) || subOf pat rest

/-- Python's `str.lower()` restricted to ASCII case folding. -/
def lowerStr (s : String) : String := String.mk (s.data.map Char.toLower)

/-- Python's `str.strip()`: whitespace removed from both ends. -/
def stripStr (s : String) : String :=
  String.mk ((((s.data.dropWhile Char.isWhitespace).reverse.dropWhile
      Char.isWhitespace).reverse))

/-- Substring test on strings, both sides lower-cased first: models
Python's `pat.lower() in s.lower()`. -/
def containsLower (s pat : String) : Bool :=
  subOf (lowerStr pat).data (lowerStr s).data

/-- Word boundary `\b` between the previous character (none at the start of
the string) and the first character of a candidate match. -/
def boundaryBefore (prev : Option Char) (first : Char) : Bool :=
  wordChar first != (match prev with | none => false | some c => wordChar c)

/-- Word boundary `\b` between the last character of a candidate match and
the remainder of the string. -/
def boundaryAfter (last : Char) (rest : List Char) : Bool :=
  wordChar last != (match rest with | [] => false | c :: _ => wordChar c)

/-- Try to match one alternation literal at the current position, between
word boundaries; returns the remainder of the string after the match. -/
def litHit? (lit : List Char) (prev : Option Char) (s : List Char) :
    Option (List Char) :=
  match lit with
  | [] => none
  | a :: _ =>
    if boundaryBefore prev a then
      match dropPref? lit s with
      | some rest =>
        if boundaryAfter (lit.getLastD a) rest then some rest else none
      | none => none
    else none

/-- Whether some alternation literal matches somewhere in the string, between
word boundaries: models `re.search(r"\b(l1|l2|...)\b", text, IGNORECASE)`
on already lower-cased text and literals. -/
def searchLits (lits : List (List Char)) : Option Char → List Char → Bool
  | _, [] => false
  | prev, c :: rest =>
    lits.any (fun l => (litHit? l prev (c :: rest)).isSome) ||
      searchLits lits (some c) rest

/-- First literal (in alternation order) matching at the current position,
with the remainder after the match. -/
def firstLit? (lits : List (List Char)) (prev : Option Char) (s : List Char) :
    Option (List Char × List Char) :=
  lits.findSome? (fun l => (litHit? l prev s).map (fun r => (l, r)))

/-- Left-to-right, non-overlapping collection of matched literals: models
`re.findall` on an alternation-of-literals pattern (for patterns with one
capture group Python returns the group, which here equals the whole match;
for the nested group of the first rule we keep the outer match).  The fuel
argument is the length of the remaining string. -/
def findTermsAux (lits : List (List Char)) : Nat → Option Char → List Char →
    List (List Char)
  | 0, _, _ => []
  | _ + 1, _, [] => []
  | fuel + 1, prev, c :: rest =>
    match firstLit? lits prev (c :: rest) with
    | some (l, rest') => l :: findTermsAux lits fuel (some (l.getLastD c)) rest'
    | none => findTermsAux lits fuel (some c) rest

/-- All matched literals of the pattern in the string, left to right. -/
def findTerms (lits : List (List Char)) (s : List Char) : List (List Char) :=
  findTermsAux lits s.length none s

/-! ## Static demo data (`src/app.py` lines 38-132) -/

/-- One entry of `DEMO_MATRIX_RULES`; the regex `pattern` is represented by
its list of alternative literals `lits` (lower-cased, in regex trial
order). -/
structure MatrixRule where
  lits : List String
  clause : String
  category : String
  title : String
  threshold : String
  risk_level : String
  confidence : ℚ
deriving DecidableEq, Inhabited

/-- The rule table `DEMO_MATRIX_RULES` of `src/app.py`. -/
def DEMO_MATRIX_RULES : List MatrixRule := [
  { lits := ["encryption", "encrypted", "encrypting", "encrypt", "aes",
             "rsa", "des", "3des", "cipher", "暗号"],
    clause := "5A002", category := "情報セキュリティ",
    title := "暗号機能付き情報セキュリティ機器",
    threshold := "56ビット以上の鍵長", risk_level := "HIGH",
    confidence := 85/100 },
  { lits := ["5-axis", "5軸", "multi-axis", "多軸", "cnc", "nc", "servo",
             "サーボ"],
    clause := "2B001", category := "工作機械",
    title := "高精度数値制御工作機械",
    threshold := "位置決め精度0.006mm以下", risk_level := "MEDIUM",
    confidence := 78/100 },
  { lits := ["drone", "uav", "unmanned", "flight controller", "ドローン",
             "無人機"],
    clause := "9A012", category := "航空宇宙",
    title := "無人航空機関連装置",
    threshold := "射程300km以上または搭載能力500kg以上", risk_level := "HIGH",
    confidence := 92/100 },
  { lits := ["gan", "inp", "gaas", "sic", "ghz", "高周波", "mmic"],
    clause := "3A001", category := "電子機器",
    title := "高周波・化合物半導体デバイス",
    threshold := "動作周波数3GHz以上", risk_level := "MEDIUM",
    confidence := 81/100 },
  { lits := ["laser", "レーザー", "lidar", "光学", "optical"],
    clause := "6A005", category := "センサー",
    title := "レーザー関連装置",
    threshold := "波長出力特性による", risk_level := "MEDIUM",
    confidence := 72/100 },
  { lits := ["carbon fiber", "カーボンファイバー", "composite", "複合材"],
    clause := "1C010", category := "材料",
    title := "繊維または糸状材料",
    threshold := "特定の引張強度・弾性率", risk_level := "LOW",
    confidence := 68/100 }]

/-- One entry of `SANCTIONED_DESTINATIONS` (name, severity level, reason,
display color). -/
structure SanctionEntry where
  name : String
  level : String
  reason : String
  color : String
deriving DecidableEq, Inhabited

/-- The ordered sanction table `SANCTIONED_DESTINATIONS` of `src/app.py`
(Python dicts preserve insertion order). -/
def SANCTIONED_DESTINATIONS : List SanctionEntry := [
  ⟨"北朝鮮", "CRITICAL", "包括的禁輸措置（国連安保理決議）", "#dc2626"⟩,
  ⟨"DPRK", "CRITICAL", "包括的禁輸措置（国連安保理決議）", "#dc2626"⟩,
  ⟨"ロシア", "HIGH", "追加的措置対象（特定品目）", "#ea580c"⟩,
  ⟨"イラン", "HIGH", "追加的措置対象（WMD関連）", "#ea580c"⟩,
  ⟨"シリア", "HIGH", "武器禁輸措置", "#ea580c"⟩]

/-- One entry of the watchlist `DEMO_EUL` (entity name plus details). -/
structure EULEntry where
  name : String
  country : String
  risk : String
  reason : String
  last_updated : String
  color : String
deriving DecidableEq, Inhabited

/-- The ordered watchlist `DEMO_EUL` of `src/app.py`. -/
def DEMO_EUL : List EULEntry := [
  ⟨"Acme Research Institute", "Xland", "HIGH", "需要者リスト該当（WMD懸念）",
    "2025-03-15", "#ea580c"⟩,
  ⟨"Orbital Dynamics Lab", "Country Y", "MEDIUM",
    "需要者リスト該当（要デューデリジェンス）", "2025-02-20", "#f59e0b"⟩,
  ⟨"Global Defense Systems", "Various", "HIGH", "軍事転用懸念",
    "2025-04-01", "#ea580c"⟩]

/-- The red-flag term list `END_USE_RED_FLAGS` of `src/app.py`. -/
def END_USE_RED_FLAGS : List String := [
  "military", "軍事", "defense", "防衛", "weapon", "兵器",
  "missile", "ミサイル", "nuclear", "核", "WMD", "大量破壊兵器"]

/-! ## Screening (`screen_transaction`, `src/app.py` lines 175-235) -/

/-- The four per-field screening slots plus the accumulated score and the
derived overall risk; a slot holds `none` when its flag is `None` in the
Python dict and `some details` when the flag is `HIT` (or `WARNING` with
the collected red-flag terms for the end-use slot). -/
structure ScreeningResult where
  destination : Option SanctionEntry
  buyer : Option EULEntry
  end_user : Option EULEntry
  end_use : Option (List String)
  overall_risk : String
  risk_score : Nat
deriving DecidableEq

/-- Destination check: exact match of the stripped destination against the
sanction table (`dest in SANCTIONED_DESTINATIONS`). -/
def destCheck (destination : String) : Option SanctionEntry :=
  SANCTIONED_DESTINATIONS.find? (fun e => e.name == stripStr destination)

/-- Watchlist check for the buyer / end-user fields: the first entity (in
declaration order) whose lower-cased name is a substring of the lower-cased
field (`entity.lower() in field.lower()`). -/
def eulCheck (field : String) : Option EULEntry :=
  DEMO_EUL.find? (fun e => containsLower field e.name)

/-- Red-flag scan of the end-use text: every term of `END_USE_RED_FLAGS`
that occurs in the lower-cased text (`flag in use_text`; the terms
themselves are not lower-cased, exactly as in the source). -/
def redFlagCheck (end_use : String) : List String :=
  END_USE_RED_FLAGS.filter (fun f => subOf f.data (lowerStr end_use).data)

/-- Assembly of the screening result from the four check results, mirroring
the sequential `risk_score` accumulation and the final threshold cascade of
`screen_transaction` (initial `overall_risk` is `"LOW"`). -/
def screenOf (destHit : Option SanctionEntry) (buyerHit endUserHit : Option EULEntry)
    (redFlags : List String) : ScreeningResult :=
  let s1 : Nat := if destHit.isSome then 0 + 40 else 0
  let s2 : Nat := if buyerHit.isSome then s1 + 25 else s1
  let s3 : Nat := if endUserHit.isSome then s2 + 30 else s2
  let s4 : Nat := if redFlags.isEmpty then s3 else s3 + 15
  { destination := destHit
    buyer := buyerHit
    end_user := endUserHit
    end_use := if redFlags.isEmpty then none else some redFlags
    overall_risk :=
      if 50 ≤ s4 then "CRITICAL"
      else if 25 ≤ s4 then "HIGH"
      else if 10 ≤ s4 then "MEDIUM"
      else "LOW"
    risk_score := s4 }

/-- The screening function `screen_transaction` of `src/app.py`. -/
def screen_transaction (destination buyer end_user end_use : String) :
    ScreeningResult :=
  screenOf (destCheck destination) (eulCheck buyer) (eulCheck end_user)
    (redFlagCheck end_use)

/-! ## Decision (`generate_case_decision`, `src/app.py` lines 238-272) -/

/-- The case decision record produced by `generate_case_decision`. -/
structure CaseDecision where
  requires_license : Bool
  status : String
  recommendation : String
  next_steps : List String
  estimated_time : String
deriving DecidableEq

/-- One hit of the classifier; `idx` records the position of the generating
rule in `DEMO_MATRIX_RULES` (the rule table is ordered, so this is the
declaration order used to state stability of the sort). -/
structure ClassificationHit where
  idx : Nat
  clause : String
  category : String
  title : String
  threshold : String
  risk_level : String
  confidence : ℚ
  matched_terms : List String
deriving DecidableEq, Inhabited

/-- The decision function `generate_case_decision` of `src/app.py`:
`requires_license = bool(classification_hits) or screening["risk_score"] > 0`,
and the status cascade `BLOCKED` / `LICENSE_REQUIRED` / `CLEAR` with the
fixed recommendation, next-step and estimated-time texts. -/
def generate_case_decision (classification_hits : List ClassificationHit)
    (screening : ScreeningResult) : CaseDecision :=
  let requires_license : Bool :=
    !classification_hits.isEmpty || decide (0 < screening.risk_score)
  let status : String :=
    if screening.overall_risk == "CRITICAL" then "BLOCKED"
    else if requires_license then "LICENSE_REQUIRED" else "CLEAR"
  if status == "BLOCKED" then
    { requires_license := requires_license, status := status
      recommendation := "輸出不可：制裁対象国・団体への輸出は禁止されています。"
      next_steps := ["本案件は承認できません", "法務部門・経産省へ相談"]
      estimated_time := "N/A" }
  else if status == "LICENSE_REQUIRED" then
    { requires_license := requires_license, status := status
      recommendation := "許可申請必要：リスト規制品または取引審査でリスクが検出されました。"
      next_steps := ["詳細な技術資料の準備", "エンドユース誓約書の取得",
                     "経産省へ個別許可申請（NACCS経由）", "審査期間: 約2-3ヶ月を想定"]
      estimated_time := "2-3ヶ月" }
  else
    { requires_license := requires_license, status := status
      recommendation := "輸出可能：現時点でリスト規制・取引審査上の問題は検出されていません。"
      next_steps := ["社内承認手続きの実施", "出荷書類の準備", "該非判定書の保管（3年間）"]
      estimated_time := "即時" }

/-! ## Classifier (`enhanced_classify`, `src/app.py` lines 151-172) -/

/-- The text normalizer of `enhanced_classify`:
`combined_text = f"{text} {item_name} {params}".lower()` — the three inputs
joined with single-space separators and lower-cased. -/
def combinedText (text item_name params : String) : String :=
  lowerStr (text ++ " " ++ item_name ++ " " ++ params)

/-- The hit record appended for rule number `i` when its pattern matches the
corpus: all descriptive fields are copied from the rule,
`confidence = min(0.99, rule["confidence"] + jitter)` where `j i` is the
value `random.uniform(-0.05, 0.05)` drew for this rule, and
`matched_terms` is `re.findall(pattern, combined_text, IGNORECASE)[:5]`. -/
def mkHit (i : Nat) (r : MatrixRule) (corpus : List Char) (j : Nat → ℚ) :
    ClassificationHit :=
  { idx := i
    clause := r.clause
    category := r.category
    title := r.title
    threshold := r.threshold
    risk_level := r.risk_level
    confidence := min (99/100) (r.confidence + j i)
    matched_terms :=
      ((findTerms (r.lits.map String.data) corpus).map
        (fun l => String.mk l)).take 5 }

/-- The rule loop of `enhanced_classify`: hits are appended in rule
declaration order, one per matching rule; `i` is the index of the first
rule of `rs` in the full table. -/
def rawHitsAux (corpus : List Char) (j : Nat → ℚ) :
    Nat → List MatrixRule → List ClassificationHit
  | _, [] => []
  | i, r :: rs =>
    (if searchLits (r.lits.map String.data) none corpus
      then [mkHit i r corpus j] else []) ++ rawHitsAux corpus j (i + 1) rs

/-- Stable descending insertion by confidence: the inserted hit goes in
front of the first hit whose confidence is not larger (so an earlier hit
stays in front of later hits of equal confidence). -/
def insertHit (x : ClassificationHit) :
    List ClassificationHit → List ClassificationHit
  | [] => [x]
  | y :: ys =>
    if y.confidence ≤ x.confidence then x :: y :: ys else y :: insertHit x ys

/-- Stable sort by descending confidence: models
`hits.sort(key=lambda x: x["confidence"], reverse=True)` (Python's sort is
stable, and every stable descending sort produces the same list). -/
def sortHits : List ClassificationHit → List ClassificationHit
  | [] => []
  | x :: xs => insertHit x (sortHits xs)

/-- The classifier `enhanced_classify` of `src/app.py`: normalize the three
text inputs into one lower-cased corpus, collect one hit per matching rule
in declaration order, then sort by descending confidence.  The per-rule
jitter of `random.uniform(-0.05, 0.05)` is the explicit argument `j`. -/
def enhanced_classify (text item_name params : String) (j : Nat → ℚ) :
    List ClassificationHit :=
  sortHits (rawHitsAux (combinedText text item_name params).data j 0
    DEMO_MATRIX_RULES)

/-! ## Helper lemmas about the screening result -/

/-- The Python threshold cascade computing `overall_risk` from the final
`risk_score`, written as stated in the specification (highest threshold
first, `LOW` otherwise). -/
def riskLevelOfScore (n : Nat) : String :=
  if 50 ≤ n then "CRITICAL"
  else if 25 ≤ n then "HIGH"
  else if 10 ≤ n then "MEDIUM"
  else "LOW"

theorem screenOf_score (o1 : Option SanctionEntry) (o2 o3 : Option EULEntry)
    (l : List String) :
    (screenOf o1 o2 o3 l).risk_score =
      (if (screenOf o1 o2 o3 l).destination.isSome then 40 else 0) +
      (if (screenOf o1 o2 o3 l).buyer.isSome then 25 else 0) +
      (if (screenOf o1 o2 o3 l).end_user.isSome then 30 else 0) +
      (if (screenOf o1 o2 o3 l).end_use.isSome then 15 else 0) := by
  cases o1 <;> cases o2 <;> cases o3 <;> cases l <;> simp [screenOf]

theorem screenOf_score_mem (o1 : Option SanctionEntry) (o2 o3 : Option EULEntry)
    (l : List String) :
    (screenOf o1 o2 o3 l).risk_score ∈
      ([0, 15, 25, 30, 40, 45, 55, 65, 70, 80, 85, 95, 110] : List Nat) := by
  cases o1 <;> cases o2 <;> cases o3 <;> cases l <;> simp [screenOf]

theorem screenOf_risk (o1 : Option SanctionEntry) (o2 o3 : Option EULEntry)
    (l : List String) :
    (screenOf o1 o2 o3 l).overall_risk =
      riskLevelOfScore (screenOf o1 o2 o3 l).risk_score := rfl

theorem screenOf_critical_score {o1 : Option SanctionEntry}
    {o2 o3 : Option EULEntry} {l : List String}
    (h : (screenOf o1 o2 o3 l).overall_risk = "CRITICAL") :
    50 ≤ (screenOf o1 o2 o3 l).risk_score := by
  rw [screenOf_risk] at h
  unfold riskLevelOfScore at h
  by_cases h50 : 50 ≤ (screenOf o1 o2 o3 l).risk_score
  · exact h50
  · exfalso
    rw [if_neg h50] at h
    split at h
    · exact absurd h (by decide)
    · split at h
      · exact absurd h (by decide)
      · exact absurd h (by decide)

theorem screenOf_score_zero_risk {o1 : Option SanctionEntry}
    {o2 o3 : Option EULEntry} {l : List String}
    (h : (screenOf o1 o2 o3 l).risk_score = 0) :
    (screenOf o1 o2 o3 l).overall_risk = "LOW" := by
  rw [screenOf_risk, h]
  rfl

/-! ## Helper lemmas about the decision record -/

theorem requires_license_eq (hits : List ClassificationHit)
    (scr : ScreeningResult) :
    (generate_case_decision hits scr).requires_license =
      (!hits.isEmpty || decide (0 < scr.risk_score)) := by
  unfold generate_case_decision
  by_cases h1 : (scr.overall_risk == "CRITICAL") = true <;>
    by_cases h2 : (!hits.isEmpty || decide (0 < scr.risk_score)) = true <;>
      simp [h1, h2]

theorem status_eq (hits : List ClassificationHit) (scr : ScreeningResult) :
    (generate_case_decision hits scr).status =
      (if scr.overall_risk == "CRITICAL" then "BLOCKED"
       else if (!hits.isEmpty || decide (0 < scr.risk_score))
       then "LICENSE_REQUIRED" else "CLEAR") := by
  unfold generate_case_decision
  by_cases h1 : (scr.overall_risk == "CRITICAL") = true <;>
    by_cases h2 : (!hits.isEmpty || decide (0 < scr.risk_score)) = true <;>
      simp [h1, h2]

theorem decision_of_screenOf (hits : List ClassificationHit)
    (o1 : Option SanctionEntry) (o2 o3 : Option EULEntry) (l : List String) :
    ((generate_case_decision hits (screenOf o1 o2 o3 l)).status = "CLEAR" ↔
      (generate_case_decision hits (screenOf o1 o2 o3 l)).requires_license
        = false) ∧
    ((generate_case_decision hits (screenOf o1 o2 o3 l)).status = "BLOCKED" →
      (generate_case_decision hits (screenOf o1 o2 o3 l)).requires_license
        = true) := by
  cases o1 <;> cases o2 <;> cases o3 <;> cases l <;>
    cases hhits : hits.isEmpty <;>
      simp [requires_license_eq, status_eq, screenOf, hhits]

/-! ## Helper lemmas about the classifier -/

/-- The order the sorted hit list satisfies: non-increasing confidence, and
for equal confidence the rule-table position (declaration order) is
increasing. -/
def hitOrder (a b : ClassificationHit) : Prop :=
  b.confidence ≤ a.confidence ∧ (a.confidence = b.confidence → a.idx < b.idx)

theorem insertHit_perm (x : ClassificationHit) :
    ∀ l : List ClassificationHit, (insertHit x l).Perm (x :: l)
  | [] => List.Perm.refl _
  | y :: ys => by
    unfold insertHit
    split
    · exact List.Perm.refl _
    · exact ((insertHit_perm x ys).cons y).trans (List.Perm.swap x y ys)

theorem sortHits_perm : ∀ l : List ClassificationHit, (sortHits l).Perm l
  | [] => List.Perm.refl _
  | x :: xs => (insertHit_perm x (sortHits xs)).trans ((sortHits_perm xs).cons x)

theorem pairwise_insertHit {x : ClassificationHit} :
    ∀ {l : List ClassificationHit}, l.Pairwise hitOrder →
      (∀ y ∈ l, x.idx < y.idx) → (insertHit x l).Pairwise hitOrder := by
  intro l
  induction l with
  | nil =>
    intro _ _
    simp [insertHit, hitOrder]
  | cons y ys ih =>
    intro hp hidx
    rw [List.pairwise_cons] at hp
    obtain ⟨hy, hys⟩ := hp
    unfold insertHit
    split
    case isTrue hc =>
      rw [List.pairwise_cons]
      refine ⟨?_, ?_⟩
      · intro z hz
        rcases List.mem_cons.mp hz with rfl | hz'
        · exact ⟨hc, fun _ => hidx z (List.mem_cons_self _ _)⟩
        · exact ⟨le_trans (hy z hz').1 hc,
            fun _ => hidx z (List.mem_cons_of_mem _ hz')⟩
      · rw [List.pairwise_cons]
        exact ⟨hy, hys⟩
    case isFalse hc =>
      have hlt : x.confidence < y.confidence := lt_of_not_le hc
      rw [List.pairwise_cons]
      refine ⟨?_, ih hys (fun z hz => hidx z (List.mem_cons_of_mem _ hz))⟩
      intro z hz
      have hz' : z = x ∨ z ∈ ys := by
        have := (insertHit_perm x ys).mem_iff.mp hz
        simpa using this
      rcases hz' with rfl | hz''
      · exact ⟨le_of_lt hlt, fun heq => ((lt_irrefl _ (heq ▸ hlt)).elim)⟩
      · exact hy z hz''

theorem pairwise_sortHits :
    ∀ {l : List ClassificationHit},
      l.Pairwise (fun a b => a.idx < b.idx) →
        (sortHits l).Pairwise hitOrder := by
  intro l
  induction l with
  | nil =>
    intro _
    simp [sortHits]
  | cons x xs ih =>
    intro hp
    rw [List.pairwise_cons] at hp
    obtain ⟨hx, hxs⟩ := hp
    show (insertHit x (sortHits xs)).Pairwise hitOrder
    exact pairwise_insertHit (ih hxs)
      (fun y hy => hx y ((sortHits_perm xs).mem_iff.mp hy))

theorem rawHitsAux_idx_le (corpus : List Char) (j : Nat → ℚ) :
    ∀ (i : Nat) (rs : List MatrixRule), ∀ h ∈ rawHitsAux corpus j i rs,
      i ≤ h.idx := by
  intro i rs
  induction rs generalizing i with
  | nil =>
    intro h hmem
    simp [rawHitsAux] at hmem
  | cons r rs ih =>
    intro h hmem
    rw [rawHitsAux] at hmem
    rcases List.mem_append.mp hmem with h1 | h2
    · split at h1
      · rcases List.mem_singleton.mp h1 with rfl
        exact le_refl _
      · simp at h1
    · exact le_trans (Nat.le_succ i) (ih (i + 1) h h2)

theorem rawHitsAux_pairwise_idx (corpus : List Char) (j : Nat → ℚ) :
    ∀ (i : Nat) (rs : List MatrixRule),
      (rawHitsAux corpus j i rs).Pairwise (fun a b => a.idx < b.idx) := by
  intro i rs
  induction rs generalizing i with
  | nil => simp [rawHitsAux]
  | cons r rs ih =>
    rw [rawHitsAux]
    apply List.pairwise_append.mpr
    refine ⟨?_, ih (i + 1), ?_⟩
    · split <;> simp
    · intro a ha b hb
      have hai : a.idx = i := by
        split at ha
        · rcases List.mem_singleton.mp ha with rfl
          rfl
        · simp at ha
      have hbi : i + 1 ≤ b.idx := rawHitsAux_idx_le corpus j (i + 1) rs b hb
      omega

theorem rawHitsAux_mem_eq (corpus : List Char) (j : Nat → ℚ) :
    ∀ (i : Nat) (rs : List MatrixRule), ∀ h ∈ rawHitsAux corpus j i rs,
      ∃ k, k < rs.length ∧ h = mkHit (i + k) (rs.getD k default) corpus j := by
  intro i rs
  induction rs generalizing i with
  | nil =>
    intro h hmem
    simp [rawHitsAux] at hmem
  | cons r rs ih =>
    intro h hmem
    rw [rawHitsAux] at hmem
    rcases List.mem_append.mp hmem with h1 | h2
    · split at h1
      · rcases List.mem_singleton.mp h1 with rfl
        exact ⟨0, by simp, by simp⟩
      · simp at h1
    · obtain ⟨k, hk, hkeq⟩ := ih (i + 1) h h2
      refine ⟨k + 1, by simpa using hk, ?_⟩
      simpa [Nat.add_assoc, Nat.add_comm 1 k] using hkeq

/-- The jitter-independent content of a hit: everything except the
confidence value (rule position, clause, category, title, threshold,
risk tier, matched terms). -/
def hitKey (h : ClassificationHit) :
    Nat × String × String × String × String × String × List String :=
  (h.idx, h.clause, h.category, h.title, h.threshold, h.risk_level,
    h.matched_terms)

theorem rawHitsAux_key_eq (corpus : List Char) (j1 j2 : Nat → ℚ) :
    ∀ (i : Nat) (rs : List MatrixRule),
      (rawHitsAux corpus j1 i rs).map hitKey =
        (rawHitsAux corpus j2 i rs).map hitKey := by
  intro i rs
  induction rs generalizing i with
  | nil => rfl
  | cons r rs ih =>
    rw [rawHitsAux, rawHitsAux, List.map_append, List.map_append, ih (i + 1)]
    congr 1
    split <;> rfl

/-! ## Claim theorems -/

/-- C1 counterexample: the claim asserts that screening destination
`"北朝鮮"` with the other three fields empty yields `overallRisk` CRITICAL;
on the code the risk score is 40 and the threshold cascade maps 40 to
`"HIGH"` (CRITICAL needs a score of at least 50), so the claimed
conjunction is false at this input. -/
theorem claim1_counterexample :
    ¬((screen_transaction "北朝鮮" "" "" "").risk_score = 40 ∧
      (screen_transaction "北朝鮮" "" "" "").overall_risk = "CRITICAL") := by
  decide

/-- C1 (amended): screening destination `"北朝鮮"` with empty buyer,
end-user and end-use yields risk score 40, overall risk `"HIGH"`, and only
the destination slot flagged (buyer, end-user and end-use stay
un-flagged). -/
theorem claim1_amended :
    (screen_transaction "北朝鮮" "" "" "").risk_score = 40 ∧
    (screen_transaction "北朝鮮" "" "" "").overall_risk = "HIGH" ∧
    (screen_transaction "北朝鮮" "" "" "").destination.isSome = true ∧
    (screen_transaction "北朝鮮" "" "" "").buyer = none ∧
    (screen_transaction "北朝鮮" "" "" "").end_user = none ∧
    (screen_transaction "北朝鮮" "" "" "").end_use = none := by
  decide

/-- C2: for every hits list and every screening result, the decision has
`requires_license` true exactly when the hits list is non-empty or the
risk score is positive, and the status is BLOCKED when the overall risk is
CRITICAL (taking priority over everything else), else LICENSE_REQUIRED
when a license is required, else CLEAR. -/
theorem claim2_decision_contract (hits : List ClassificationHit)
    (scr : ScreeningResult) :
    ((generate_case_decision hits scr).requires_license = true ↔
      hits ≠ [] ∨ 0 < scr.risk_score) ∧
    (generate_case_decision hits scr).status =
      (if scr.overall_risk = "CRITICAL" then "BLOCKED"
       else if hits ≠ [] ∨ 0 < scr.risk_score then "LICENSE_REQUIRED"
       else "CLEAR") := by
  constructor
  · rw [requires_license_eq]
    simp
  · rw [status_eq]
    by_cases h1 : scr.overall_risk = "CRITICAL"
    · simp [h1]
    · by_cases h2 : hits = [] <;> by_cases h3 : 0 < scr.risk_score <;>
        simp [h1, h2, h3]

/-- C2 witness: at the empty hits list and a zero-score LOW screening
record, the decision status computed by the contract is CLEAR. -/
theorem claim2_witness :
    (generate_case_decision []
      { destination := none, buyer := none, end_user := none,
        end_use := none, overall_risk := "LOW", risk_score := 0 }).status
      = "CLEAR" := by
  have h := (claim2_decision_contract []
    { destination := none, buyer := none, end_user := none,
      end_use := none, overall_risk := "LOW", risk_score := 0 }).2
  simpa using h

/-- C3: all four screening checks run independently (no short-circuiting):
the risk score always equals the sum of 40, 25, 30 and 15 over exactly the
checks whose slot fired, and with all four inputs empty every check fails,
every slot stays un-flagged, and the risk score is 0. -/
theorem claim3_riskScore_additive (destination buyer end_user end_use : String) :
    ((screen_transaction destination buyer end_user end_use).risk_score =
      (if (screen_transaction destination buyer end_user end_use).destination.isSome
        then 40 else 0) +
      (if (screen_transaction destination buyer end_user end_use).buyer.isSome
        then 25 else 0) +
      (if (screen_transaction destination buyer end_user end_use).end_user.isSome
        then 30 else 0) +
      (if (screen_transaction destination buyer end_user end_use).end_use.isSome
        then 15 else 0)) ∧
    screen_transaction "" "" "" "" =
      { destination := none, buyer := none, end_user := none, end_use := none,
        overall_risk := "LOW", risk_score := 0 } :=
  ⟨screenOf_score _ _ _ _, by decide⟩

/-- C4: the overall risk of every screening invocation is derived solely
from the final risk score by the fixed thresholds, highest first:
score at least 50 gives CRITICAL, else at least 25 gives HIGH, else at
least 10 gives MEDIUM, else LOW. -/
theorem claim4_overallRisk_thresholds (destination buyer end_user end_use : String) :
    (screen_transaction destination buyer end_user end_use).overall_risk =
      riskLevelOfScore
        (screen_transaction destination buyer end_user end_use).risk_score :=
  screenOf_risk _ _ _ _

/-- C9: each screening check contributes its increment at most once, so the
risk score always lies in the set of subset sums of 40, 25, 30 and 15 and
never exceeds 110. -/
theorem claim9_riskScore_bounded (destination buyer end_user end_use : String) :
    (screen_transaction destination buyer end_user end_use).risk_score ∈
      ([0, 15, 25, 30, 40, 45, 55, 65, 70, 80, 85, 95, 110] : List Nat) ∧
    (screen_transaction destination buyer end_user end_use).risk_score ≤ 110 := by
  refine ⟨screenOf_score_mem _ _ _ _, ?_⟩
  have h := screenOf_score_mem (destCheck destination) (eulCheck buyer)
    (eulCheck end_user) (redFlagCheck end_use)
  have hall : ∀ x ∈ ([0, 15, 25, 30, 40, 45, 55, 65, 70, 80, 85, 95, 110] :
      List Nat), x ≤ 110 := by decide
  exact hall _ h

/-- C10: for decisions built from screening results actually produced by
`screen_transaction`, the status is CLEAR exactly when no license is
required, and a BLOCKED status always comes with `requires_license` true
(a CRITICAL overall risk forces a risk score of at least 50, hence
positive). -/
theorem claim10_clear_iff_no_license (hits : List ClassificationHit)
    (destination buyer end_user end_use : String) :
    ((generate_case_decision hits
        (screen_transaction destination buyer end_user end_use)).status
        = "CLEAR" ↔
      (generate_case_decision hits
        (screen_transaction destination buyer end_user end_use)).requires_license
        = false) ∧
    ((generate_case_decision hits
        (screen_transaction destination buyer end_user end_use)).status
        = "BLOCKED" →
      (generate_case_decision hits
        (screen_transaction destination buyer end_user end_use)).requires_license
        = true) :=
  decision_of_screenOf hits (destCheck destination) (eulCheck buyer)
    (eulCheck end_user) (redFlagCheck end_use)

/-- C10 witness: with no classification hits and all screening inputs
empty, the decision is CLEAR, obtained through the equivalence at a
concrete input. -/
theorem claim10_witness :
    (generate_case_decision [] (screen_transaction "" "" "" "")).status
      = "CLEAR" :=
  ((claim10_clear_iff_no_license [] "" "" "" "").1).mpr (by decide)

/-- C5: the random jitter affects only confidence values and hence the sort
order among hits.  For any two jitter draws, the two classification runs
produce permutations of the same jitter-independent hit content (same rule
positions, clauses, categories, titles, thresholds, risk tiers and matched
terms), and the downstream decision on the same screening fields has the
same status and the same license requirement.  (The screening function
takes no jitter at all, so its flags are identical by construction.) -/
theorem claim5_jitter_independence (text item_name params : String)
    (j1 j2 : Nat → ℚ) (destination buyer end_user end_use : String) :
    ((enhanced_classify text item_name params j1).map hitKey).Perm
      ((enhanced_classify text item_name params j2).map hitKey) ∧
    (generate_case_decision (enhanced_classify text item_name params j1)
        (screen_transaction destination buyer end_user end_use)).status =
      (generate_case_decision (enhanced_classify text item_name params j2)
        (screen_transaction destination buyer end_user end_use)).status ∧
    (generate_case_decision (enhanced_classify text item_name params j1)
        (screen_transaction destination buyer end_user end_use)).requires_license
      = (generate_case_decision (enhanced_classify text item_name params j2)
        (screen_transaction destination buyer end_user end_use)).requires_license
    := by
  have e := rawHitsAux_key_eq (combinedText text item_name params).data j1 j2
    0 DEMO_MATRIX_RULES
  have hperm : ((enhanced_classify text item_name params j1).map hitKey).Perm
      ((enhanced_classify text item_name params j2).map hitKey) := by
    refine ((sortHits_perm _).map hitKey).trans ?_
    rw [e]
    exact ((sortHits_perm _).map hitKey).symm
  have hlen : (enhanced_classify text item_name params j1).length =
      (enhanced_classify text item_name params j2).length := by
    have h := hperm.length_eq
    simpa using h
  have hempty : (enhanced_classify text item_name params j1).isEmpty =
      (enhanced_classify text item_name params j2).isEmpty := by
    rcases h1 : enhanced_classify text item_name params j1 with _ | ⟨a, l1⟩ <;>
      rcases h2 : enhanced_classify text item_name params j2 with _ | ⟨b, l2⟩ <;>
        simp_all
  refine ⟨hperm, ?_, ?_⟩
  · rw [status_eq, status_eq, hempty]
  · rw [requires_license_eq, requires_license_eq, hempty]

/-- C6: the hit list returned by the classifier is sorted by descending
confidence, and hits of equal confidence keep the declaration order of
their rules in the rule table (the sort is stable). -/
theorem claim6_sorted_stable (text item_name params : String) (j : Nat → ℚ) :
    (enhanced_classify text item_name params j).Pairwise hitOrder :=
  pairwise_sortHits
    (rawHitsAux_pairwise_idx (combinedText text item_name params).data j 0
      DEMO_MATRIX_RULES)

/-- C7: with the jitter in its bounded range of plus or minus 0.05, every
hit's confidence equals the generating rule's base confidence plus its
jitter, clamped to the interval from 0 to 0.99 (the code only clamps from
above at 0.99, but every base confidence is at least 0.68 so the lower
clamp never binds); in particular every confidence lies in that
interval. -/
theorem claim7_confidence_clamped (text item_name params : String)
    (j : Nat → ℚ) (hj : ∀ i, -(5/100 : ℚ) ≤ j i ∧ j i ≤ 5/100) :
    ∀ h ∈ enhanced_classify text item_name params j,
      h.idx < DEMO_MATRIX_RULES.length ∧
      h.confidence = max 0 (min (99/100)
        ((DEMO_MATRIX_RULES.getD h.idx default).confidence + j h.idx)) ∧
      0 ≤ h.confidence ∧ h.confidence ≤ 99/100 := by
  intro h hmem
  have hmem' : h ∈ rawHitsAux (combinedText text item_name params).data j 0
      DEMO_MATRIX_RULES :=
    (sortHits_perm _).mem_iff.mp hmem
  obtain ⟨k, hk, rfl⟩ := rawHitsAux_mem_eq _ j 0 DEMO_MATRIX_RULES h hmem'
  have hbase : (68/100 : ℚ) ≤ (DEMO_MATRIX_RULES.getD k default).confidence := by
    have hk6 : k < 6 := by simpa [DEMO_MATRIX_RULES] using hk
    interval_cases k <;> norm_num [DEMO_MATRIX_RULES]
  obtain ⟨hj1, hj2⟩ := hj k
  have hpos : (0 : ℚ) ≤ min (99/100)
      ((DEMO_MATRIX_RULES.getD k default).confidence + j k) := by
    refine le_min (by norm_num) ?_
    linarith
  refine ⟨by simpa [mkHit] using hk, ?_, ?_, ?_⟩
  · simp only [mkHit, Nat.zero_add]
    rw [max_eq_right hpos]
  · simp only [mkHit, Nat.zero_add]
    exact hpos
  · simp only [mkHit, Nat.zero_add]
    exact min_le_left _ _

/-- C7 witness: the zero jitter function satisfies the bound, and the
conclusion holds for the classification of the concrete corpus
`"uses aes"` under zero jitter. -/
theorem claim7_witness :
    (∀ i : Nat, -(5/100 : ℚ) ≤ (fun _ : Nat => (0 : ℚ)) i ∧
        (fun _ : Nat => (0 : ℚ)) i ≤ 5/100) ∧
    (∀ h ∈ enhanced_classify "uses aes" "" "" (fun _ : Nat => (0 : ℚ)),
      h.idx < DEMO_MATRIX_RULES.length ∧
      h.confidence = max 0 (min (99/100)
        ((DEMO_MATRIX_RULES.getD h.idx default).confidence +
          (fun _ : Nat => (0 : ℚ)) h.idx)) ∧
      0 ≤ h.confidence ∧ h.confidence ≤ 99/100) :=
  ⟨fun _ => ⟨by norm_num, by norm_num⟩,
    claim7_confidence_clamped "uses aes" "" "" (fun _ : Nat => (0 : ℚ))
      (fun _ => ⟨by norm_num, by norm_num⟩)⟩

/-- C8 counterexample: with all three inputs empty the normalizer yields
the two-space separator string, not the empty string. -/
theorem claim8_counterexample : combinedText "" "" "" ≠ "" := by decide

/-- C8 (amended): the text normalizer concatenates its three inputs with
single-space separators and lower-cases the result (it is total, so it
never fails); when all three inputs are empty strings the resulting corpus
is the two-character separator string of two spaces. -/
theorem claim8_amended (text item_name params : String) :
    (combinedText text item_name params =
      lowerStr (text ++ " " ++ item_name ++ " " ++ params)) ∧
    ((combinedText text item_name params).data.length =
      text.data.length + item_name.data.length + params.data.length + 2) ∧
    combinedText "" "" "" = "  " := by
  refine ⟨rfl, ?_, by decide⟩
  show ((text ++ " " ++ item_name ++ " " ++ params).data.map Char.toLower).length
    = _
  rw [List.length_map]
  simp [String.data_append]
  omega

end ExportRule
